import Mathlib

/-!
# Verification of `psychopy/hardware/base.py`

Shallow embedding of the device-response model in `psychopy/hardware/base.py`:
the response record type `BaseResponse` (with its `getJSON` envelope
serialization), and the device type `BaseResponseDevice` (type-checked
ingestion via `receiveMessage`, synchronous listener fan-out, response log
maintenance, listener management).

Python dynamic values are modelled by the inductive `Val`; Python objects by
`PyObj` (a class tag plus a named-attribute list); Python classes by `PyClass`
(name, method-resolution-order ancestor names, and the class-level `fields`
schema).  `isinstance(x, C)` becomes membership of `C`'s name in the MRO of
`x`'s class.  Python exceptions are the inductive `PyError`; an operation that
can raise returns its (possibly mutated) state together with an
`Except PyError` result, since Python exceptions do not roll back prior
mutations.
-/

namespace PsychoPyBase

/-- Python runtime values as far as this module manipulates them:
numbers, strings, and `None`.  No arithmetic is ever performed on them
in `base.py`; they are only stored, looked up and compared. -/
inductive Val where
  | num (n : Int)
  | str (s : String)
  | none
deriving DecidableEq, Repr

/-- A Python class as used by `base.py`: its `__name__`, the names in its
method resolution order (ancestors, normally including itself), and the
class attribute `fields` declaring the response schema order. -/
structure PyClass where
  name : String
  mro : List String
  fields : List String
deriving DecidableEq, Repr

/-- A Python object: its concrete class and its instance attributes
(`__dict__`), as name/value pairs. -/
structure PyObj where
  cls : PyClass
  attrs : List (String × Val)
deriving DecidableEq, Repr

/-- Python `isinstance(o, c)`: the class `c` occurs in the MRO of `o`'s
concrete class. -/
def isinstance (o : PyObj) (c : PyClass) : Bool :=
  c.name ∈ o.cls.mro

/-- Python `getattr(o, key)`: look the attribute up in the instance dictionary. -/
def getattr (o : PyObj) (key : String) : Option Val :=
  o.attrs.lookup key

/-- The class `BaseResponse`, with schema `fields = ["t", "value"]`. -/
def baseResponseClass : PyClass :=
  { name := "BaseResponse", mro := ["BaseResponse"], fields := ["t", "value"] }

/-- Generic schema constructor: `__init__` stores one value per declared
schema field, in schema order.  For `BaseResponse` this is exactly
`__init__(self, t, value)` setting `self.t = t; self.value = value`. -/
def construct (c : PyClass) (vals : List Val) : PyObj :=
  { cls := c, attrs := c.fields.zip vals }

/-- Constructor call `BaseResponse(t, value)`. -/
def BaseResponse.mk (t value : Val) : PyObj :=
  construct baseResponseClass [t, value]

/-- The dictionary built by `BaseResponse.getJSON` before `json.dumps`:
`{'type': "hardware_response", 'class': type(self).__name__, 'data': {...}}`. -/
structure Envelope where
  type : String
  className : String
  data : List (String × Val)
deriving DecidableEq, Repr

/-- The `for key in self.fields` loop of `getJSON`: collect
`(key, getattr(self, key))` pairs in schema order.  `getattr` on a missing
attribute raises in Python; here that surfaces as `Option.none` (there is no
error path for records carrying their schema fields). -/
def collectData (o : PyObj) : List String → Option (List (String × Val))
  | [] => some []
  | key :: rest => do
    let v ← getattr o key
    let d ← collectData o rest
    pure ((key, v) :: d)

/-- Method `BaseResponse.getJSON`: constructs the envelope, populating `data` with
every key of the class's `fields`, in schema order, via `getattr`. -/
def getJSON (o : PyObj) : Option Envelope :=
  (collectData o o.cls.fields).map
    (fun data => { type := "hardware_response", className := o.cls.name, data := data })

/-- Python exceptions raised (or relayed) by `base.py`. -/
inductive PyError where
  | /-- The `assert` in `receiveMessage`: an `AssertionError` whose message
    names the device type, the expected response type and the actual
    message type (the spec calls this failure `TypeMismatch`). -/
    assertionError (ownType targetType msgType : String)
  | /-- Exception `raise NotImplementedError(msg)` from an unoverridden capability
    (the spec calls this `NotSupportedOperation`). -/
    notImplementedError (msg : String)
  | /-- Python `AttributeError`: raised explicitly by `addListener("liaison")` with
    no liaison server (the spec calls that one `ConfigurationError`), or by
    Python itself on a missing attribute access. -/
    attributeError (msg : String)
  | /-- An arbitrary exception raised by an external listener during fan-out,
    tagged by an identifier chosen by the listener model. -/
    listenerError (tag : String)
deriving DecidableEq, Repr

/-- An attached listener object, as consumed (not implemented) by `base.py`:
its concrete class (for `getListenerNames` and the `isinstance` check in
`addListener`), its externally-defined `receiveMessage` behaviour
(`Option.none` = returns normally, `some e` = raises `e`), and whether it has
a `loop` attribute usable by `clearListeners`. -/
structure ListenerObj where
  cls : PyClass
  recv : PyObj → Option PyError
  hasLoop : Bool

/-- An element of a device's `listeners` list.  Normally a listener object,
but `addListener` appends unrecognized strings verbatim, so raw strings can
sit in the list too. -/
inductive LEntry where
  | obj (o : ListenerObj)
  | str (s : String)

/-- Computes `type(entry).__name__`, as used by `getListenerNames`. -/
def LEntry.clsName : LEntry → String
  | .obj o => o.cls.name
  | .str _ => "str"

/-- Calling `entry.receiveMessage(msg)` on a listeners-list element: a raw
string has no such attribute, so `AttributeError`; an object runs its
external behaviour. -/
def LEntry.recvMsg : LEntry → PyObj → Option PyError
  | .str _, _ => some (.attributeError "str object has no attribute receiveMessage")
  | .obj o, msg => o.recv msg

/-- The state of a `BaseResponseDevice` (or subclass) instance: its concrete
class, its class attribute `responseClass`, and the instance lists
`listeners` and `responses` initialised empty by `__init__`. -/
structure Device where
  cls : PyClass
  responseClass : PyClass
  listeners : List LEntry
  responses : List PyObj

/-- Method `BaseResponseDevice.__init__`: empty listener and response lists. -/
def Device.init (cls responseClass : PyClass) : Device :=
  { cls := cls, responseClass := responseClass, listeners := [], responses := [] }

/-- Result of running a device method that can raise: the (possibly mutated)
device state — Python exceptions do not undo prior mutations — the indices of
the listeners whose `receiveMessage` was invoked during the call, in
invocation order, and the returned value or the propagated exception. -/
structure Outcome (α : Type) where
  dev : Device
  invoked : List Nat
  result : Except PyError α

/-- The `for listener in self.listeners: listener.receiveMessage(message)`
fan-out loop, starting at listener index `i`: returns the indices invoked
(the raising listener included, since its `receiveMessage` was called) and
the first exception, if any, which aborts the loop. -/
def relay (ls : List LEntry) (msg : PyObj) (i : Nat) : List Nat × Option PyError :=
  match ls with
  | [] => ([], Option.none)
  | l :: rest =>
    match l.recvMsg msg with
    | some e => ([i], some e)
    | Option.none =>
      let (inv, err) := relay rest msg (i + 1)
      (i :: inv, err)

/-- Method `BaseResponseDevice.receiveMessage(message)`: assert
`isinstance(message, self.responseClass)` (else `AssertionError` naming the
device type, target type and message type, before any mutation); append the
message to `self.responses`; relay it to each listener in order; return
`True`. -/
def receiveMessage (d : Device) (msg : PyObj) : Outcome Bool :=
  if isinstance msg d.responseClass then
    let d1 : Device := { d with responses := d.responses ++ [msg] }
    let r := relay d1.listeners msg 0
    { dev := d1, invoked := r.1,
      result := match r.2 with
                | Option.none => .ok true
                | some e => .error e }
  else
    { dev := d, invoked := [],
      result := .error (.assertionError d.cls.name d.responseClass.name msg.cls.name) }

/-- Method `BaseResponseDevice.makeResponse(*args, **kwargs)`: construct
`resp = self.responseClass(*args)`, pass it through `receiveMessage`
(whose exception, if any, propagates), and return `resp`. -/
def makeResponse (d : Device) (vals : List Val) : Outcome PyObj :=
  let resp := construct d.responseClass vals
  let o := receiveMessage d resp
  { dev := o.dev, invoked := o.invoked, result := o.result.map (fun _ => resp) }

/-- Method `BaseDevice.getAvailableDevices`: unconditionally raises
`NotImplementedError` in the base class. -/
def getAvailableDevices : Except PyError (List (List (String × Val))) :=
  .error (.notImplementedError
    "All subclasses of BaseDevice must implement the method `getAvailableDevices`")

/-- Method `BaseResponseDevice.parseMessage(message)`: unconditionally raises
`NotImplementedError` in the base class. -/
def parseMessage (_d : Device) (_raw : Val) : Except PyError PyObj :=
  .error (.notImplementedError
    "All subclasses of BaseDevice must implement the method `parseMessage`")

/-- Method `BaseResponseDevice.dispatchMessages`: the base implementation is
`pass` — no state change, no exception. -/
def dispatchMessages (d : Device) : Device × Option PyError :=
  (d, Option.none)

/-- Method `BaseResponseDevice.clearResponses`: `try: self.dispatchMessages()
except: pass`, then `self.responses = []`, then `return True`.  The dispatch
step is supplied as a function (subclasses override `dispatchMessages`); any
state it mutated before raising persists, its exception is discarded. -/
def clearResponses (dispatch : Device → Device × Option PyError) (d : Device) :
    Device × Bool :=
  let d1 := (dispatch d).1
  ({ d1 with responses := [] }, true)

/-- Method `BaseResponseDevice.getListenerNames`: list of the concrete type names
of the entries of `self.listeners`. -/
def getListenerNames (d : Device) : List String :=
  d.listeners.map LEntry.clsName

/-- The `LiaisonListener(DeviceManager.liaison)` constructed by
`addListener("liaison")` when a liaison server is connected.  Its runtime
behaviour is external to `base.py`; only its class identity matters here. -/
def liaisonListener : ListenerObj :=
  { cls := { name := "LiaisonListener", mro := ["LiaisonListener", "BaseListener"],
             fields := [] },
    recv := fun _ => Option.none, hasLoop := false }

/-- The `PrintListener()` constructed by `addListener("print")`. -/
def printListener : ListenerObj :=
  { cls := { name := "PrintListener", mro := ["PrintListener", "BaseListener"],
             fields := [] },
    recv := fun _ => Option.none, hasLoop := false }

/-- The `LoggingListener()` constructed by `addListener("log")`. -/
def loggingListener : ListenerObj :=
  { cls := { name := "LoggingListener", mro := ["LoggingListener", "BaseListener"],
             fields := [] },
    recv := fun _ => Option.none, hasLoop := false }

/-- The listener-resolution step of `addListener`: an object that is already
a `BaseListener` instance is kept; otherwise the string comparisons run:
`"liaison"` requires `DeviceManager.liaison` (here the `liaison` argument) to
be connected, else `AttributeError`; `"print"` and `"log"` construct preset
listeners; anything else falls through every `if` untouched.  (The source
chains plain `if`s, not `elif`s, but each successful branch replaces the
string with an object, so later string comparisons are vacuously false.) -/
def resolveListener (liaison : Option Unit) (spec : LEntry) : Except PyError LEntry :=
  match spec with
  | .obj o => .ok (.obj o)
  | .str s =>
    if s = "liaison" then
      match liaison with
      | Option.none => .error (.attributeError
          "Cannot create a `liaison` listener as no liaison server is connected to DeviceManager.")
      | some _ => .ok (.obj liaisonListener)
    else if s = "print" then .ok (.obj printListener)
    else if s = "log" then .ok (.obj loggingListener)
    else .ok (.str s)

/-- Result of `addListener`: the device state, the returned (resolved)
listener or the propagated exception, and the entry on which
`listener.startLoop(self)` was invoked, if any (the loop mechanics are
external). -/
structure AddOutcome where
  dev : Device
  result : Except PyError LEntry
  started : Option LEntry

/-- Method `BaseResponseDevice.addListener(listener, startLoop=False)`: resolve the
spec (exceptions propagate before any mutation), append the resolved entry to
`self.listeners`, call `listener.startLoop(self)` if requested, and return
the resolved listener.  `liaison` stands for the process-wide
`DeviceManager.liaison` handle. -/
def addListener (liaison : Option Unit) (d : Device) (spec : LEntry)
    (startLoop : Bool := false) : AddOutcome :=
  match resolveListener liaison spec with
  | .error e => { dev := d, result := .error e, started := Option.none }
  | .ok l =>
    { dev := { d with listeners := d.listeners ++ [l] },
      result := .ok l,
      started := if startLoop then some l else Option.none }

/-- Call `entry.loop.removeDevice(entry)` as performed by `clearListeners`: a raw
string or an object without a `loop` attribute raises `AttributeError`; the
removal itself is external and returns normally otherwise. -/
def LEntry.loopRemove : LEntry → Option PyError
  | .str _ => some (.attributeError "str object has no attribute loop")
  | .obj o => if o.hasLoop then Option.none
              else some (.attributeError "listener has no attribute loop")

/-- First exception arising while walking the listeners in the
`clearListeners` loop. -/
def firstLoopErr : List LEntry → Option PyError
  | [] => Option.none
  | l :: rest =>
    match l.loopRemove with
    | some e => some e
    | Option.none => firstLoopErr rest

/-- Method `BaseResponseDevice.clearListeners`: for each listener, call
`listener.loop.removeDevice(listener)` (an exception there propagates,
leaving `self.listeners` untouched); then `self.listeners = []`; return
`True`. -/
def clearListeners (d : Device) : Outcome Bool :=
  match firstLoopErr d.listeners with
  | some e => { dev := d, invoked := [], result := .error e }
  | Option.none =>
    { dev := { d with listeners := [] }, invoked := [], result := .ok true }

/-- Iterated ingestion: feed a list of messages through `receiveMessage`
one after the other, keeping the device state (in Python an exception would
abort the sequence, but the state reached is the same fold since the append
happens before fan-out). -/
def iterateRecv (d : Device) (msgs : List PyObj) : Device :=
  msgs.foldl (fun dev m => (receiveMessage dev m).dev) d

/-- The documented invariant of the response log: every stored response is
an instance of the device's declared `responseClass`. -/
def Inv (d : Device) : Prop :=
  ∀ m ∈ d.responses, isinstance m d.responseClass = true

/-- A concrete device subclass tag, for instantiating the theorems. -/
def kbCls : PyClass :=
  { name := "KeyboardDevice",
    mro := ["KeyboardDevice", "BaseResponseDevice", "BaseDevice"], fields := [] }

/-- A freshly-initialised demo device with the base response class. -/
def demoDevice : Device :=
  Device.init kbCls baseResponseClass

/-- A demo message of the right response type. -/
def demoMsg : PyObj :=
  BaseResponse.mk (Val.num 1) (Val.str "a")

/-- A second demo message of the right response type. -/
def demoMsg2 : PyObj :=
  BaseResponse.mk (Val.num 2) (Val.str "b")

/-- A demo object that is not a `BaseResponse`. -/
def strayObj : PyObj :=
  { cls := { name := "RawBytes", mro := ["RawBytes"], fields := [] }, attrs := [] }

/-- A demo listener whose `receiveMessage` raises. -/
def boomListener : ListenerObj :=
  { cls := { name := "BoomListener", mro := ["BoomListener", "BaseListener"],
             fields := [] },
    recv := fun _ => some (.listenerError "boom"), hasLoop := false }

/-- The demo device with one well-behaved listener attached. -/
def demoDeviceL : Device :=
  { demoDevice with listeners := [.obj printListener] }

/-- The demo device with a well-behaved listener followed by a raising one. -/
def demoDeviceBoom : Device :=
  { demoDevice with listeners := [.obj printListener, .obj boomListener] }

/-! ## Helper lemmas -/

lemma relay_all_ok (msg : PyObj) (ls : List LEntry) :
    ∀ i : Nat, (∀ l ∈ ls, l.recvMsg msg = Option.none) →
      relay ls msg i = (List.range' i ls.length, Option.none) := by
  induction ls with
  | nil => intro i _; rfl
  | cons l rest ih =>
    intro i h
    have hl : l.recvMsg msg = Option.none := h l (List.mem_cons_self l rest)
    have ihh := ih (i + 1) (fun x hx => h x (List.mem_cons_of_mem l hx))
    simp [relay, hl, ihh, List.range'_succ]

lemma relay_fail (msg : PyObj) (bad : LEntry) (e : PyError)
    (hbad : bad.recvMsg msg = some e) (pre : List LEntry) :
    ∀ (post : List LEntry) (i : Nat), (∀ l ∈ pre, l.recvMsg msg = Option.none) →
      relay (pre ++ bad :: post) msg i = (List.range' i (pre.length + 1), some e) := by
  induction pre with
  | nil =>
    intro post i _
    simp [relay, hbad, List.range'_succ]
  | cons l rest ih =>
    intro post i h
    have hl : l.recvMsg msg = Option.none := h l (List.mem_cons_self l rest)
    have ihh := ih post (i + 1) (fun x hx => h x (List.mem_cons_of_mem l hx))
    simp [relay, hl, ihh, List.range'_succ]

lemma receiveMessage_dev_of_valid (d : Device) (msg : PyObj)
    (hm : isinstance msg d.responseClass = true) :
    (receiveMessage d msg).dev = { d with responses := d.responses ++ [msg] } := by
  simp [receiveMessage, hm]

lemma receiveMessage_of_invalid (d : Device) (msg : PyObj)
    (hm : isinstance msg d.responseClass = false) :
    receiveMessage d msg =
      { dev := d, invoked := [],
        result := .error
          (.assertionError d.cls.name d.responseClass.name msg.cls.name) } := by
  simp [receiveMessage, hm]

lemma iterateRecv_responses (msgs : List PyObj) :
    ∀ d : Device, (∀ m ∈ msgs, isinstance m d.responseClass = true) →
      (iterateRecv d msgs).responses = d.responses ++ msgs := by
  induction msgs with
  | nil => intro d _; simp [iterateRecv]
  | cons m rest ih =>
    intro d h
    have hm : isinstance m d.responseClass = true := h m (List.mem_cons_self m rest)
    have hdev := receiveMessage_dev_of_valid d m hm
    have step : iterateRecv d (m :: rest) = iterateRecv ((receiveMessage d m).dev) rest := rfl
    have ihh := ih { d with responses := d.responses ++ [m] }
      (fun x hx => h x (List.mem_cons_of_mem m hx))
    rw [step, hdev, ihh]
    simp

lemma lookup_self_of_nodup_fst (l : List (String × Val))
    (hnd : (l.map Prod.fst).Nodup) :
    ∀ p ∈ l, l.lookup p.1 = some p.2 := by
  induction l with
  | nil => intro p hp; exact absurd hp (List.not_mem_nil p)
  | cons q qs ih =>
    rw [List.map_cons, List.nodup_cons] at hnd
    intro p hp
    rcases List.mem_cons.mp hp with hp | hp
    · subst hp
      simp [List.lookup]
    · have hne : p.1 ≠ q.1 := by
        intro hEq
        exact hnd.1 (hEq ▸ List.mem_map_of_mem Prod.fst hp)
      have : (p.1 == q.1) = false := beq_eq_false_iff_ne.mpr hne
      simp [List.lookup, this, ih hnd.2 p hp]

lemma collectData_of_lookup (o : PyObj) (pairs : List (String × Val))
    (h : ∀ p ∈ pairs, getattr o p.1 = some p.2) :
    collectData o (pairs.map Prod.fst) = some pairs := by
  induction pairs with
  | nil => rfl
  | cons p ps ih =>
    have hp : getattr o p.1 = some p.2 := h p (List.mem_cons_self p ps)
    have ihh := ih (fun x hx => h x (List.mem_cons_of_mem p hx))
    simp [collectData, hp, ihh]

/-! ## Claim theorems -/

/-- C1: for every device and every record that is not an instance of the
device's declared `responseClass`, `receiveMessage(record)` fails with the
type-mismatch `AssertionError` naming the device type, the expected type and
the actual type, leaves `responses` (indeed the whole device state) unchanged,
and invokes no listener. -/
theorem receiveMessage_type_mismatch (d : Device) (msg : PyObj)
    (h : isinstance msg d.responseClass = false) :
    (receiveMessage d msg).dev = d ∧
    (receiveMessage d msg).invoked = [] ∧
    (receiveMessage d msg).result =
      .error (.assertionError d.cls.name d.responseClass.name msg.cls.name) := by
  rw [receiveMessage_of_invalid d msg h]
  exact ⟨rfl, rfl, rfl⟩

/-- Witness for C1: a `RawBytes` object fed to a `KeyboardDevice` expecting
`BaseResponse` is rejected with the three names, leaving the device as it was. -/
theorem receiveMessage_type_mismatch_witness :
    isinstance strayObj demoDevice.responseClass = false ∧
    (receiveMessage demoDevice strayObj).dev = demoDevice ∧
    (receiveMessage demoDevice strayObj).invoked = [] ∧
    (receiveMessage demoDevice strayObj).result =
      .error (.assertionError "KeyboardDevice" "BaseResponse" "RawBytes") := by
  have h := receiveMessage_type_mismatch demoDevice strayObj (by decide)
  exact ⟨by decide, h.1, h.2.1, h.2.2⟩

/-- C2: for every device and record of the declared `responseClass` type,
`receiveMessage` appends the record to `responses`, synchronously invokes
every attached listener in registration order (indices `0, 1, …`), and
returns `True`; iterating it over `n` valid records grows `responses` by
those `n` records in call order. -/
theorem receiveMessage_valid (d : Device) (msg : PyObj)
    (hm : isinstance msg d.responseClass = true)
    (hl : ∀ l ∈ d.listeners, l.recvMsg msg = Option.none) :
    (receiveMessage d msg).dev.responses = d.responses ++ [msg] ∧
    (receiveMessage d msg).invoked = List.range d.listeners.length ∧
    (receiveMessage d msg).result = .ok true ∧
    ∀ msgs : List PyObj, (∀ m ∈ msgs, isinstance m d.responseClass = true) →
      (iterateRecv d msgs).responses = d.responses ++ msgs ∧
      (iterateRecv d msgs).responses.length = d.responses.length + msgs.length := by
  have hr := relay_all_ok msg d.listeners 0 hl
  refine ⟨?_, ?_, ?_, ?_⟩
  · rw [receiveMessage_dev_of_valid d msg hm]
  · simp [receiveMessage, hm, hr, List.range_eq_range']
  · simp [receiveMessage, hm, hr]
  · intro msgs hmsgs
    have h := iterateRecv_responses msgs d hmsgs
    exact ⟨h, by simp [h]⟩

/-- Witness for C2: a device with one well-behaved listener accepts a
`BaseResponse`, returns `True`, invokes listener `0`, and two successive
valid records end up in `responses` in call order. -/
theorem receiveMessage_valid_witness :
    isinstance demoMsg demoDeviceL.responseClass = true ∧
    (receiveMessage demoDeviceL demoMsg).dev.responses = [demoMsg] ∧
    (receiveMessage demoDeviceL demoMsg).invoked = [0] ∧
    (receiveMessage demoDeviceL demoMsg).result = .ok true ∧
    (iterateRecv demoDeviceL [demoMsg, demoMsg2]).responses = [demoMsg, demoMsg2] := by
  have hm : isinstance demoMsg demoDeviceL.responseClass = true := by decide
  have hl : ∀ l ∈ demoDeviceL.listeners, l.recvMsg demoMsg = Option.none := by
    intro l hlmem
    simp [demoDeviceL, demoDevice, Device.init] at hlmem
    subst hlmem; rfl
  have h := receiveMessage_valid demoDeviceL demoMsg hm hl
  refine ⟨hm, ?_, ?_, h.2.2.1, ?_⟩
  · simpa [demoDeviceL, demoDevice, Device.init] using h.1
  · rw [h.2.1]; decide
  · have h2 := (h.2.2.2 [demoMsg, demoMsg2] ?_).1
    · simpa [demoDeviceL, demoDevice, Device.init] using h2
    · intro m hmem
      simp at hmem
      rcases hmem with hmem | hmem <;> subst hmem <;> decide

/-- C3: for every device and every (possibly overridden, possibly raising)
`dispatchMessages` step, `clearResponses` performs exactly one dispatch
attempt, discards its exception component, then truncates `responses` to
empty and returns `True` — so `responses` is empty afterwards even when the
drain step raised. -/
theorem clearResponses_spec (dispatch : Device → Device × Option PyError)
    (d : Device) :
    clearResponses dispatch d = ({ (dispatch d).1 with responses := [] }, true) ∧
    (clearResponses dispatch d).1.responses = [] ∧
    (clearResponses dispatch d).2 = true :=
  ⟨rfl, rfl, rfl⟩

/-- C4: `addListener("liaison", startLoop)` with no liaison server connected
(`DeviceManager.liaison is None`) raises the configuration `AttributeError`
and leaves the device — in particular its `listeners` list — unchanged,
whatever `startLoop` is. -/
theorem addListener_liaison_no_server (d : Device) (sl : Bool) :
    addListener Option.none d (.str "liaison") sl =
      { dev := d,
        result := .error (.attributeError
          "Cannot create a `liaison` listener as no liaison server is connected to DeviceManager."),
        started := Option.none } ∧
    (addListener Option.none d (.str "liaison") sl).dev.listeners = d.listeners :=
  ⟨rfl, rfl⟩

/-- C5: for every record built from its declared schema fields (distinct
field names, one value per field), `getJSON` has no error path: it yields the
envelope whose `type` is the constant `"hardware_response"`, whose `class` is
the record's concrete type name, and whose `data` holds exactly the declared
schema fields in schema order; reading `data` back in schema order recovers
exactly the original field names and values. -/
theorem getJSON_roundtrip (c : PyClass) (vals : List Val)
    (hnd : c.fields.Nodup) (hlen : vals.length = c.fields.length) :
    getJSON (construct c vals) =
      some { type := "hardware_response", className := c.name,
             data := c.fields.zip vals } ∧
    (c.fields.zip vals).map Prod.fst = c.fields ∧
    (c.fields.zip vals).map Prod.snd = vals := by
  have hfst : (c.fields.zip vals).map Prod.fst = c.fields :=
    List.map_fst_zip _ _ (le_of_eq hlen.symm)
  have hsnd : (c.fields.zip vals).map Prod.snd = vals :=
    List.map_snd_zip _ _ (le_of_eq hlen)
  have hnd' : ((c.fields.zip vals).map Prod.fst).Nodup := by rw [hfst]; exact hnd
  have hlook := lookup_self_of_nodup_fst (c.fields.zip vals) hnd'
  have hm := collectData_of_lookup (construct c vals) (c.fields.zip vals) hlook
  rw [hfst] at hm
  refine ⟨?_, hfst, hsnd⟩
  simp [getJSON, construct] at hm ⊢
  simp [hm]

/-- Witness for C5: `BaseResponse(t=5, value=42)` serializes to the envelope
with both fields in schema order. -/
theorem getJSON_roundtrip_witness :
    baseResponseClass.fields.Nodup ∧
    ([Val.num 5, Val.num 42] : List Val).length = baseResponseClass.fields.length ∧
    getJSON (construct baseResponseClass [Val.num 5, Val.num 42]) =
      some { type := "hardware_response", className := baseResponseClass.name,
             data := baseResponseClass.fields.zip [Val.num 5, Val.num 42] } :=
  ⟨by decide, by decide,
    (getJSON_roundtrip baseResponseClass [Val.num 5, Val.num 42]
      (by decide) (by decide)).1⟩

/-- C6: the base-class (not overridden) capability operations fail with
`NotImplementedError`: the type-level `getAvailableDevices`, and
`parseMessage` on any instance with any raw message. -/
theorem defaults_raise_not_implemented :
    getAvailableDevices =
      .error (.notImplementedError
        "All subclasses of BaseDevice must implement the method `getAvailableDevices`") ∧
    ∀ (d : Device) (raw : Val),
      parseMessage d raw =
        .error (.notImplementedError
          "All subclasses of BaseDevice must implement the method `parseMessage`") :=
  ⟨rfl, fun _ _ => rfl⟩

/-- C7: for every device (whose `responseClass` is well formed, i.e. lists
itself in its MRO) and any field values, `makeResponse` returns exactly the
record built directly by the schema constructor from those values, and passes
it through `receiveMessage`, appending it to `responses`. -/
theorem makeResponse_spec (d : Device) (vals : List Val)
    (hself : d.responseClass.name ∈ d.responseClass.mro)
    (hl : ∀ l ∈ d.listeners, l.recvMsg (construct d.responseClass vals) = Option.none) :
    (makeResponse d vals).result = .ok (construct d.responseClass vals) ∧
    (makeResponse d vals).dev.responses =
      d.responses ++ [construct d.responseClass vals] := by
  have hin : isinstance (construct d.responseClass vals) d.responseClass = true := by
    simpa [isinstance, construct] using hself
  have h := receiveMessage_valid d (construct d.responseClass vals) hin hl
  constructor
  · show ((receiveMessage d (construct d.responseClass vals)).result.map _) = _
    rw [h.2.2.1]
    rfl
  · exact h.1

/-- Witness for C7: `makeResponse(t=5, value=42)` on a fresh device returns
the directly-constructed record and appends it to `responses`. -/
theorem makeResponse_spec_witness :
    baseResponseClass.name ∈ baseResponseClass.mro ∧
    (makeResponse demoDevice [Val.num 5, Val.num 42]).result =
      .ok (construct baseResponseClass [Val.num 5, Val.num 42]) ∧
    (makeResponse demoDevice [Val.num 5, Val.num 42]).dev.responses =
      [construct baseResponseClass [Val.num 5, Val.num 42]] := by
  have h := makeResponse_spec demoDevice [Val.num 5, Val.num 42] (by decide)
    (fun l hl => absurd hl (List.not_mem_nil l))
  exact ⟨by decide, h.1, h.2⟩

/-- C8: the log invariant — every element of `responses` is an instance of
the device's declared `responseClass` — is preserved by every operation:
`receiveMessage` (with any record, well- or ill-typed), `makeResponse`,
`clearResponses` (under any dispatch step), the default `dispatchMessages`,
`addListener` and `clearListeners`. -/
theorem responses_invariant (d : Device) (h : Inv d) :
    (∀ msg, Inv (receiveMessage d msg).dev) ∧
    (∀ vals, Inv (makeResponse d vals).dev) ∧
    (∀ dispatch, Inv (clearResponses dispatch d).1) ∧
    Inv (dispatchMessages d).1 ∧
    (∀ liaison spec sl, Inv (addListener liaison d spec sl).dev) ∧
    Inv (clearListeners d).dev := by
  have hrecv : ∀ msg, Inv (receiveMessage d msg).dev := by
    intro msg
    by_cases hm : isinstance msg d.responseClass = true
    · rw [receiveMessage_dev_of_valid d msg hm]
      intro m hmem
      rcases List.mem_append.mp hmem with hmem | hmem
      · exact h m hmem
      · rw [List.mem_singleton.mp hmem]; exact hm
    · rw [receiveMessage_of_invalid d msg (Bool.not_eq_true _ ▸ hm)]
      exact h
  refine ⟨hrecv, ?_, ?_, h, ?_, ?_⟩
  · intro vals
    exact hrecv (construct d.responseClass vals)
  · intro dispatch m hmem
    exact absurd hmem (List.not_mem_nil m)
  · intro liaison spec sl
    cases hr : resolveListener liaison spec with
    | error e => simpa [Inv, addListener, hr] using h
    | ok l => simpa [Inv, addListener, hr] using h
  · cases hr : firstLoopErr d.listeners with
    | some e => simpa [Inv, clearListeners, hr] using h
    | none => simpa [Inv, clearListeners, hr] using h

/-- Witness for C8: the fresh demo device satisfies the invariant, and still
does after ingesting a valid record. -/
theorem responses_invariant_witness :
    Inv demoDevice ∧ Inv (receiveMessage demoDevice demoMsg).dev := by
  have h : Inv demoDevice := fun m hm => absurd hm (List.not_mem_nil m)
  exact ⟨h, (responses_invariant demoDevice h).1 demoMsg⟩

/-- C9: with a valid record, the append to `responses` happens before any
listener runs: if the listeners are `pre ++ [bad] ++ post` where every
listener in `pre` succeeds and `bad` raises `e`, then after `receiveMessage`
the record is (and stays) in `responses`, exactly the listeners
`0 … pre.length` were invoked, and `e` propagates — no rollback of the
append. -/
theorem receiveMessage_no_rollback (d : Device) (msg : PyObj)
    (pre post : List LEntry) (bad : LEntry) (e : PyError)
    (hL : d.listeners = pre ++ bad :: post)
    (hm : isinstance msg d.responseClass = true)
    (hpre : ∀ l ∈ pre, l.recvMsg msg = Option.none)
    (hbad : bad.recvMsg msg = some e) :
    (receiveMessage d msg).dev.responses = d.responses ++ [msg] ∧
    (receiveMessage d msg).invoked = List.range (pre.length + 1) ∧
    (receiveMessage d msg).result = .error e := by
  have hr := relay_fail msg bad e hbad pre post 0 hpre
  refine ⟨?_, ?_, ?_⟩
  · rw [receiveMessage_dev_of_valid d msg hm]
  · simp [receiveMessage, hm, hL, hr, List.range_eq_range']
  · simp [receiveMessage, hm, hL, hr]

/-- Witness for C9: a well-behaved listener followed by a raising one — the
record lands in `responses`, both listeners were invoked, and the listener's
exception propagates. -/
theorem receiveMessage_no_rollback_witness :
    isinstance demoMsg demoDeviceBoom.responseClass = true ∧
    (receiveMessage demoDeviceBoom demoMsg).dev.responses = [demoMsg] ∧
    (receiveMessage demoDeviceBoom demoMsg).invoked = [0, 1] ∧
    (receiveMessage demoDeviceBoom demoMsg).result =
      .error (.listenerError "boom") := by
  have hm : isinstance demoMsg demoDeviceBoom.responseClass = true := by decide
  have h := receiveMessage_no_rollback demoDeviceBoom demoMsg
    [.obj printListener] [] (.obj boomListener) (.listenerError "boom")
    rfl hm (by intro l hl; rw [List.mem_singleton.mp hl]; rfl) rfl
  refine ⟨hm, ?_, ?_, h.2.2⟩
  · simpa [demoDeviceBoom, demoDevice, Device.init] using h.1
  · rw [h.2.1]; decide

/-- C10: `addListener(s)` with a string `s` that is none of the recognized
tags `"liaison"`, `"print"`, `"log"` raises nothing: the raw string itself is
appended to `listeners` and returned, and `getListenerNames` then reports the
string's type name `"str"` for it. -/
theorem addListener_raw_string (liaison : Option Unit) (d : Device) (s : String)
    (h1 : s ≠ "liaison") (h2 : s ≠ "print") (h3 : s ≠ "log") :
    (addListener liaison d (.str s) false).result = .ok (.str s) ∧
    (addListener liaison d (.str s) false).dev.listeners =
      d.listeners ++ [LEntry.str s] ∧
    getListenerNames (addListener liaison d (.str s) false).dev =
      getListenerNames d ++ ["str"] := by
  have hr : resolveListener liaison (.str s) = .ok (.str s) := by
    simp [resolveListener, h1, h2, h3]
  refine ⟨?_, ?_, ?_⟩ <;>
    simp [addListener, hr, getListenerNames, LEntry.clsName]

/-- Witness for C10: the unrecognized tag `"myTag"` is appended verbatim and
shows up as a `str` entry. -/
theorem addListener_raw_string_witness :
    ("myTag" : String) ≠ "liaison" ∧
    (addListener Option.none demoDevice (.str "myTag") false).result =
      .ok (.str "myTag") ∧
    getListenerNames (addListener Option.none demoDevice (.str "myTag") false).dev =
      ["str"] := by
  have h := addListener_raw_string Option.none demoDevice "myTag"
    (by decide) (by decide) (by decide)
  refine ⟨by decide, h.1, ?_⟩
  simpa [demoDevice, Device.init, getListenerNames] using h.2.2

end PsychoPyBase
